import Mathlib

/-!
Verification of the Mega Millions lottery simulator (src/main.py).

Embedding conventions:
* The pseudo-random source (Python `random` after seeding) is modelled as an
  infinite stream `s : Nat → Nat` of draws; `random.sample(pool, k)` is
  modelled by `sample`, which repeatedly picks the element at a
  stream-determined index of the remaining pool and removes it, and
  `random.choice(pool)` by indexing the pool at a stream-determined index.
* Python floats are modelled as rationals (`ℚ`).
* Python strings are modelled as `String`; the `in` substring test is the
  infix relation on the underlying character lists, and `str.split()[0]` is
  the first whitespace-free token.
* Printing functions are modelled by the values they format and print.
-/

namespace MegaMillionsSim

/-- A ticket or draw: the list of white balls plus the mega ball
(`TicketNumbers = Tuple[List[int], int]` in the source). -/
abbrev TicketNumbers := List Nat × Nat

/-- Win statistics for one prize tier (dataclass `WinData`). -/
structure WinData where
  count : Nat := 0
  prize : Nat := 0
  total : Nat := 0
  odds : ℚ := 0
deriving Repr, DecidableEq

/-- `MegaMillions.JACKPOT_AMOUNT`. -/
def JACKPOT_AMOUNT : Nat := 1000000000

/-- `MegaMillions.DEFAULT_TICKET_COST` (in dollars). -/
def DEFAULT_TICKET_COST : ℚ := 2

/-- `MegaMillions.WHITE_BALL_MAX` (exclusive upper bound of `range`). -/
def WHITE_BALL_MAX : Nat := 71

/-- `MegaMillions.MEGA_BALL_MAX` (exclusive upper bound of `range`). -/
def MEGA_BALL_MAX : Nat := 26

/-- `self.white_ball_range = range(1, WHITE_BALL_MAX)`, i.e. `[1..70]`. -/
def white_ball_range : List Nat := List.range' 1 (WHITE_BALL_MAX - 1)

/-- `self.mega_ball_range = range(1, MEGA_BALL_MAX)`, i.e. `[1..25]`. -/
def mega_ball_range : List Nat := List.range' 1 (MEGA_BALL_MAX - 1)

/-- Model of `random.sample(pool, k)` driven by the stream `s` from index
`i` on: pick the element at position `s i % pool.length` of the remaining
pool, remove it, repeat.  This captures sampling without replacement. -/
def sample : List Nat → Nat → (Nat → Nat) → Nat → List Nat
  | _, 0, _, _ => []
  | pool, k + 1, s, i =>
    let x := pool.getD (s i % pool.length) 0
    x :: sample (pool.erase x) k s (i + 1)

/-- `MegaMillions.generate_numbers`: 5 white balls sampled without
replacement from `[1..70]` and sorted, plus one mega ball chosen from
`[1..25]`.  The stream positions `i..i+4` drive the sample and `i+5`
drives the choice. -/
def generate_numbers (s : Nat → Nat) (i : Nat) : TicketNumbers :=
  (List.insertionSort (· ≤ ·) (sample white_ball_range 5 s i),
   mega_ball_range.getD (s (i + 5) % mega_ball_range.length) 0)

/-- `white_matches = len(set(ticket[0]) & set(winning_numbers[0]))`. -/
def white_matches (ticket winning : TicketNumbers) : Nat :=
  (ticket.1.dedup.filter (fun x => winning.1.contains x)).length

/-- `mega_matches = ticket[1] == winning_numbers[1]`. -/
def mega_matches (ticket winning : TicketNumbers) : Bool :=
  ticket.2 == winning.2

/-- The `prize_structure` dictionary of `check_win`, as an association
list in source order. -/
def prize_structure : List ((Nat × Bool) × Nat) :=
  [((5, true), 1000000000),
   ((5, false), 1000000),
   ((4, true), 10000),
   ((4, false), 500),
   ((3, true), 200),
   ((3, false), 10),
   ((2, true), 10),
   ((1, true), 4),
   ((0, true), 2)]

/-- `prize_structure.get((white_matches, mega_matches), 0)`. -/
def payout_of (wm : Nat) (mm : Bool) : Nat :=
  (prize_structure.lookup (wm, mm)).getD 0

/-- `MegaMillions.check_win`. -/
def check_win (ticket winning : TicketNumbers) : Nat :=
  payout_of (white_matches ticket winning) (mega_matches ticket winning)

/-- The payout table exactly as the spec words it: nine listed pairs, 0
for every pair not in the table.  Used only to compare with `check_win`. -/
def payout_spec (wm : Nat) (mm : Bool) : Nat :=
  if wm = 5 ∧ mm = true then 1000000000
  else if wm = 5 ∧ mm = false then 1000000
  else if wm = 4 ∧ mm = true then 10000
  else if wm = 4 ∧ mm = false then 500
  else if wm = 3 ∧ mm = true then 200
  else if wm = 3 ∧ mm = false then 10
  else if wm = 2 ∧ mm = true then 10
  else if wm = 1 ∧ mm = true then 4
  else if wm = 0 ∧ mm = true then 2
  else 0

/-- The match-description string of `get_match_description` as a function
of the pair (white matches, mega match). -/
def descOf (wm : Nat) (mm : Bool) : String :=
  if wm == 0 && mm then "Mega Ball only"
  else if mm then
    toString wm ++ " number" ++ (if wm != 1 then "s" else "") ++ " + Mega Ball"
  else
    toString wm ++ " number" ++ (if wm != 1 then "s" else "")

/-- `MegaMillions.get_match_description`. -/
def get_match_description (ticket winning : TicketNumbers) : String :=
  descOf (white_matches ticket winning) (mega_matches ticket winning)

/-- Python substring containment `needle in hay`. -/
def strContains (hay needle : String) : Bool :=
  decide (needle.data <:+: hay.data)

/-- Python `s.split()[0]` for a string not starting with whitespace: the
characters before the first space. -/
def firstToken (d : String) : String :=
  ⟨d.data.takeWhile (fun c => c != ' ')⟩

/-- The aggregation key `main` derives from a match description:
`key = match_desc if "Mega Ball only" in match_desc else ("5 + Mega Ball"
if "5" in match_desc and "Mega Ball" in match_desc else
match_desc.split()[0] + (" + Mega Ball" if "Mega Ball" in match_desc
else ""))`. -/
def derive_key (d : String) : String :=
  if strContains d "Mega Ball only" then d
  else if strContains d "5" && strContains d "Mega Ball" then "5 + Mega Ball"
  else firstToken d ++ (if strContains d "Mega Ball" then " + Mega Ball" else "")

/-- `initialize_win_summary`: the nine prize tiers with their prizes and
official odds, in source order.  The Python dict is modelled as an
association list (Python dicts preserve insertion order). -/
def initialize_win_summary : List (String × WinData) :=
  [("5 + Mega Ball", { prize := JACKPOT_AMOUNT, odds := 1 / 302575350 }),
   ("5", { prize := 1000000, odds := 1 / 12607306 }),
   ("4 + Mega Ball", { prize := 10000, odds := 1 / 931001 }),
   ("4", { prize := 500, odds := 1 / 38792 }),
   ("3 + Mega Ball", { prize := 200, odds := 1 / 14547 }),
   ("3", { prize := 10, odds := 1 / 606 }),
   ("2 + Mega Ball", { prize := 10, odds := 1 / 693 }),
   ("1 + Mega Ball", { prize := 4, odds := 1 / 89 }),
   ("Mega Ball only", { prize := 2, odds := 1 / 37 })]

/-- `win_summary[key].count += 1; win_summary[key].total += prize` on the
association-list model of the dict. -/
def updateSummary (ws : List (String × WinData)) (key : String) (prize : Nat) :
    List (String × WinData) :=
  ws.map (fun p =>
    if p.1 = key then
      (p.1, { p.2 with count := p.2.count + 1, total := p.2.total + prize })
    else p)

/-- One iteration of the ticket loop in `main`: state is
(total_won, win_summary); the ticket is checked, its prize added to
total_won, and on a positive prize the derived key's tier is updated. -/
def processTicket (winning : TicketNumbers) (st : Nat × List (String × WinData))
    (ticket : TicketNumbers) : Nat × List (String × WinData) :=
  let prize := check_win ticket winning
  if prize > 0 then
    (st.1 + prize,
     updateSummary st.2 (derive_key (get_match_description ticket winning)) prize)
  else (st.1 + prize, st.2)

/-- The whole ticket loop of `main`, from the initial state
(0, initialize_win_summary). -/
def runTickets (winning : TicketNumbers) (tickets : List TicketNumbers) :
    Nat × List (String × WinData) :=
  tickets.foldl (processTicket winning) (0, initialize_win_summary)

/-- `net profit/loss = total_won - total_spent` as printed by
`print_summary`. -/
def net_profit_loss (total_spent : ℚ) (total_won : Nat) : ℚ :=
  total_won - total_spent

/-- `return on spend = total_won / total_spent * 100` as printed by
`print_summary`. -/
def return_on_spend (total_spent : ℚ) (total_won : Nat) : ℚ :=
  total_won / total_spent * 100

/-- The two derived numbers printed by `print_summary`:
(net profit/loss, return on spend %). -/
def print_summary (num_tickets : Nat) (total_spent : ℚ) (total_won : Nat) : ℚ × ℚ :=
  (net_profit_loss total_spent total_won, return_on_spend total_spent total_won)

/-- One row of the probability table, as computed by
`_print_probability_row`. -/
structure ProbRow where
  match_type : String
  expected : ℚ
  actual : Nat
  diff_percent : ℚ
  within_2sigma : Bool
deriving Repr, DecidableEq

/-- `_print_probability_row`: the row values for one tier.  The standard
deviation `sqrt(n*p*(1-p))` is irrational, so the within-two-sigma flag
`|actual - expected| <= 2 * std_dev` is recorded by the equivalent squared
comparison, valid because both sides are nonnegative. -/
def print_probability_row (match_type : String) (data : WinData) (num_tickets : Nat) :
    ProbRow :=
  let expected : ℚ := num_tickets * data.odds
  let actual : Nat := data.count
  let variance : ℚ := num_tickets * data.odds * (1 - data.odds)
  let diff_percent : ℚ :=
    if expected > 0 then ((actual - expected) / expected) * 100 else 0
  { match_type := match_type,
    expected := expected,
    actual := actual,
    diff_percent := diff_percent,
    within_2sigma := decide ((actual - expected) ^ 2 ≤ 4 * variance) }

/-- `print_probability_analysis`: one row per tier of the summary. -/
def print_probability_analysis (ws : List (String × WinData)) (num_tickets : Nat) :
    List ProbRow :=
  ws.map (fun p => print_probability_row p.1 p.2 num_tickets)

/-- `num_tickets = 10` in `main`. -/
def num_tickets : Nat := 10

/-- Everything `main` prints that depends on data: the winning numbers,
the summary block values and the probability table. -/
structure SimOutput where
  winning_numbers : TicketNumbers
  total_spent : ℚ
  total_won : Nat
  summary : ℚ × ℚ
  table : List ProbRow
deriving Repr, DecidableEq

/-- `main`: seed-determined draw, 10 seed-determined tickets through the
loop, then the reported outputs.  The draw consumes stream positions 0-5
and ticket `k` (0-based) consumes positions `6*(k+1)`..`6*(k+1)+5`. -/
def simulate (s : Nat → Nat) : SimOutput :=
  let winning := generate_numbers s 0
  let tickets := (List.range num_tickets).map (fun k => generate_numbers s (6 * (k + 1)))
  let res := runTickets winning tickets
  { winning_numbers := winning,
    total_spent := num_tickets * DEFAULT_TICKET_COST,
    total_won := res.1,
    summary := print_summary num_tickets (num_tickets * DEFAULT_TICKET_COST) res.1,
    table := print_probability_analysis res.2 num_tickets }

/-- `generate_numbers` with the game configuration explicit and the
sampling failure modelled: `random.sample(pool, 5)` raises `ValueError`
exactly when the pool has fewer than 5 elements, and `generate_numbers`
wraps it in `ValueError("Failed to generate numbers")`. -/
def generate_numbers_checked (white_pool mega_pool : List Nat) (s : Nat → Nat)
    (i : Nat) : Except String TicketNumbers :=
  if 5 ≤ white_pool.length then
    Except.ok
      (List.insertionSort (· ≤ ·) (sample white_pool 5 s i),
       mega_pool.getD (s (i + 5) % mega_pool.length) 0)
  else Except.error "Failed to generate numbers"

/-- `main` over the fallible generator: any generation error propagates
(the exception is logged and re-raised), so no partial result is
reported. -/
def simulateE (white_pool mega_pool : List Nat) (s : Nat → Nat) :
    Except String SimOutput := do
  let winning ← generate_numbers_checked white_pool mega_pool s 0
  let tickets ← (List.range num_tickets).mapM
    (fun k => generate_numbers_checked white_pool mega_pool s (6 * (k + 1)))
  let res := tickets.foldl (processTicket winning) (0, initialize_win_summary)
  pure
    { winning_numbers := winning,
      total_spent := num_tickets * DEFAULT_TICKET_COST,
      total_won := res.1,
      summary := print_summary num_tickets (num_tickets * DEFAULT_TICKET_COST) res.1,
      table := print_probability_analysis res.2 num_tickets }

/-! ### Helper lemmas -/

/-- The association-list lookup of `check_win` agrees with the spec's
payout table on every pair. -/
theorem payout_of_eq_spec (wm : Nat) (mm : Bool) : payout_of wm mm = payout_spec wm mm := by
  match wm, mm with
  | 0, true => decide
  | 0, false => decide
  | 1, true => decide
  | 1, false => decide
  | 2, true => decide
  | 2, false => decide
  | 3, true => decide
  | 3, false => decide
  | 4, true => decide
  | 4, false => decide
  | 5, true => decide
  | 5, false => decide
  | n + 6, mm => rfl

/-- Any (white matches, mega match) pair with a positive payout derives an
aggregation key that is one of the nine keys of the win summary. -/
theorem derive_key_mem (wm : Nat) (mm : Bool) (h : 0 < payout_of wm mm) :
    derive_key (descOf wm mm) ∈ initialize_win_summary.map Prod.fst := by
  match wm, mm with
  | 0, true => decide
  | 1, true => decide
  | 2, true => decide
  | 3, true => decide
  | 3, false => decide
  | 4, true => decide
  | 4, false => decide
  | 5, true => decide
  | 5, false => decide
  | 0, false => exact absurd h (by decide)
  | 1, false => exact absurd h (by decide)
  | 2, false => exact absurd h (by decide)
  | n + 6, mm => exact absurd h (by rw [payout_of_eq_spec]; exact (by rfl : payout_spec (n + 6) mm = 0) ▸ lt_irrefl 0)

/-- Sum of the per-tier win counts of a summary. -/
def sumCounts (ws : List (String × WinData)) : Nat :=
  (ws.map (fun p => p.2.count)).sum

/-- Sum of the per-tier payout totals of a summary. -/
def sumTotals (ws : List (String × WinData)) : Nat :=
  (ws.map (fun p => p.2.total)).sum

theorem updateSummary_cons (p : String × WinData) (rest : List (String × WinData))
    (k : String) (pr : Nat) :
    updateSummary (p :: rest) k pr =
      (if p.1 = k then
        (p.1, { p.2 with count := p.2.count + 1, total := p.2.total + pr })
      else p) :: updateSummary rest k pr := rfl

theorem updateSummary_keys (ws : List (String × WinData)) (k : String) (pr : Nat) :
    (updateSummary ws k pr).map Prod.fst = ws.map Prod.fst := by
  induction ws with
  | nil => rfl
  | cons p rest ih =>
    rw [updateSummary_cons, List.map_cons, List.map_cons, ih]
    congr 1
    split <;> rfl

theorem updateSummary_of_not_mem (ws : List (String × WinData)) (k : String) (pr : Nat)
    (h : k ∉ ws.map Prod.fst) : updateSummary ws k pr = ws := by
  induction ws with
  | nil => rfl
  | cons p rest ih =>
    simp only [List.map_cons, List.mem_cons, not_or] at h
    rw [updateSummary_cons, if_neg (fun hp => h.1 hp.symm), ih h.2]

theorem updateSummary_sums (ws : List (String × WinData)) (k : String) (pr : Nat)
    (hnd : (ws.map Prod.fst).Nodup) (hmem : k ∈ ws.map Prod.fst) :
    sumCounts (updateSummary ws k pr) = sumCounts ws + 1 ∧
    sumTotals (updateSummary ws k pr) = sumTotals ws + pr := by
  induction ws with
  | nil => simp at hmem
  | cons p rest ih =>
    simp only [List.map_cons, List.nodup_cons] at hnd
    by_cases hp : p.1 = k
    · have hrest : k ∉ rest.map Prod.fst := hp ▸ hnd.1
      rw [updateSummary_cons, if_pos hp, updateSummary_of_not_mem rest k pr hrest]
      constructor <;> simp [sumCounts, sumTotals] <;> omega
    · have hmem' : k ∈ rest.map Prod.fst := by
        simp only [List.map_cons, List.mem_cons] at hmem
        exact hmem.resolve_left (fun h => hp h.symm)
      obtain ⟨ihc, iht⟩ := ih hnd.2 hmem'
      rw [updateSummary_cons, if_neg hp]
      constructor <;> simp only [sumCounts, sumTotals, List.map_cons, List.sum_cons] at * <;>
        omega

theorem updateSummary_mem_other (ws : List (String × WinData)) (k : String) (pr : Nat)
    (p : String × WinData) (hp : p ∈ ws) (hne : p.1 ≠ k) :
    p ∈ updateSummary ws k pr := by
  have : (if p.1 = k then
      (p.1, { p.2 with count := p.2.count + 1, total := p.2.total + pr }) else p) = p :=
    if_neg hne
  exact this ▸ List.mem_map_of_mem _ hp

theorem processTicket_fst (winning : TicketNumbers) (st : Nat × List (String × WinData))
    (t : TicketNumbers) : (processTicket winning st t).1 = st.1 + check_win t winning := by
  simp only [processTicket]
  split <;> rfl

/-- Invariant of the ticket loop: the key set of the summary is stable,
each processed ticket raises the count sum by at most one, and the total
sum tracks the accumulated winnings. -/
theorem foldl_processTicket_inv (winning : TicketNumbers) :
    ∀ (tickets : List TicketNumbers) (tw : Nat) (ws : List (String × WinData)),
    ws.map Prod.fst = initialize_win_summary.map Prod.fst →
    (tickets.foldl (processTicket winning) (tw, ws)).2.map Prod.fst =
        initialize_win_summary.map Prod.fst ∧
    sumCounts (tickets.foldl (processTicket winning) (tw, ws)).2 ≤
        sumCounts ws + tickets.length ∧
    sumTotals (tickets.foldl (processTicket winning) (tw, ws)).2 + tw =
        sumTotals ws + (tickets.foldl (processTicket winning) (tw, ws)).1 := by
  intro tickets
  induction tickets with
  | nil => exact fun tw ws hkeys => ⟨hkeys, by simp, rfl⟩
  | cons t rest ih =>
    intro tw ws hkeys
    have hndinit : (initialize_win_summary.map Prod.fst).Nodup := by decide
    by_cases hpz : 0 < check_win t winning
    · have hkeymem : derive_key (get_match_description t winning) ∈ ws.map Prod.fst := by
        rw [hkeys]
        exact derive_key_mem _ _ hpz
      have hstep : processTicket winning (tw, ws) t =
          (tw + check_win t winning,
           updateSummary ws (derive_key (get_match_description t winning))
             (check_win t winning)) := by
        simp only [processTicket]
        rw [if_pos hpz]
      obtain ⟨hsc, hst⟩ := updateSummary_sums ws
        (derive_key (get_match_description t winning)) (check_win t winning)
        (hkeys ▸ hndinit) hkeymem
      have hkeys' := (updateSummary_keys ws
        (derive_key (get_match_description t winning)) (check_win t winning)).trans hkeys
      obtain ⟨k1, k2, k3⟩ := ih (tw + check_win t winning) _ hkeys'
      have hlen : (t :: rest).length = rest.length + 1 := rfl
      rw [List.foldl_cons, hstep]
      exact ⟨k1, by omega, by omega⟩
    · have hstep : processTicket winning (tw, ws) t = (tw + check_win t winning, ws) := by
        simp only [processTicket]
        rw [if_neg hpz]
      obtain ⟨k1, k2, k3⟩ := ih (tw + check_win t winning) ws hkeys
      have hlen : (t :: rest).length = rest.length + 1 := rfl
      rw [List.foldl_cons, hstep]
      exact ⟨k1, by omega, by omega⟩

/-- The sample taken from a duplicate-free pool has the requested size,
is duplicate-free, and stays inside the pool. -/
theorem sample_wellformed :
    ∀ (k : Nat) (pool : List Nat) (s : Nat → Nat) (i : Nat),
    k ≤ pool.length → pool.Nodup →
    (sample pool k s i).length = k ∧ (sample pool k s i).Nodup ∧
      ∀ x ∈ sample pool k s i, x ∈ pool := by
  intro k
  induction k with
  | zero => exact fun pool s i _ _ => ⟨rfl, List.nodup_nil, by simp [sample]⟩
  | succ k ih =>
    intro pool s i hk hnd
    have hpos : 0 < pool.length := lt_of_lt_of_le (Nat.succ_pos k) hk
    have hidx : s i % pool.length < pool.length := Nat.mod_lt _ hpos
    have hxmem : pool.getD (s i % pool.length) 0 ∈ pool := by
      rw [List.getD_eq_getElem _ _ hidx]
      exact List.getElem_mem hidx
    have hlen_erase : (pool.erase (pool.getD (s i % pool.length) 0)).length =
        pool.length - 1 := List.length_erase_of_mem hxmem
    have hk' : k ≤ (pool.erase (pool.getD (s i % pool.length) 0)).length := by omega
    have hnd' : (pool.erase (pool.getD (s i % pool.length) 0)).Nodup := hnd.erase _
    obtain ⟨hl, hn, hm⟩ := ih (pool.erase (pool.getD (s i % pool.length) 0)) s (i + 1) hk' hnd'
    have hunfold : sample pool (k + 1) s i =
        pool.getD (s i % pool.length) 0 ::
          sample (pool.erase (pool.getD (s i % pool.length) 0)) k s (i + 1) := rfl
    rw [hunfold]
    refine ⟨by rw [List.length_cons, hl], ?_, ?_⟩
    · rw [List.nodup_cons]
      refine ⟨fun hmem => ?_, hn⟩
      have := (hnd.mem_erase_iff.mp (hm _ hmem)).1
      exact this rfl
    · intro x hx
      rcases List.mem_cons.mp hx with h | h
      · exact h ▸ hxmem
      · exact List.erase_subset _ _ (hm x h)

/-- The sorted white balls of a generated ticket are a permutation of the
raw sample. -/
theorem generate_numbers_perm (s : Nat → Nat) (i : Nat) :
    (generate_numbers s i).1.Perm (sample white_ball_range 5 s i) :=
  List.perm_insertionSort _ _

/-- Well-formedness of the white-ball pool. -/
theorem white_ball_range_spec :
    white_ball_range.length = 70 ∧ white_ball_range.Nodup ∧
      ∀ x ∈ white_ball_range, 1 ≤ x ∧ x ≤ 70 := by
  refine ⟨rfl, List.nodup_range' _ _, fun x hx => ?_⟩
  have := List.mem_range'_1.mp hx
  simp only [WHITE_BALL_MAX] at this
  omega

/-! ### Claim theorems -/

/-- C1: for every ticket and every draw, `check_win` returns the payout
given by the fixed lookup table applied to (white matches, mega match):
(5,true) pays 1000000000, (5,false) 1000000, (4,true) 10000, (4,false)
500, (3,true) 200, (3,false) 10, (2,true) 10, (1,true) 4, (0,true) 2,
and 0 for every other pair; the function is total and deterministic. -/
theorem check_win_matches_spec_table (ticket winning : TicketNumbers) :
    check_win ticket winning =
      payout_spec (white_matches ticket winning) (mega_matches ticket winning) :=
  payout_of_eq_spec _ _

/-- C2: for every ticket and draw with 5 white matches and a mega match,
the aggregation key `main` derives from the match description is exactly
"5 + Mega Ball", so the win is counted and its payout totaled in that
tier, and every entry of any other tier is left untouched by the
aggregation step. -/
theorem jackpot_aggregates_into_top_tier (ticket winning : TicketNumbers)
    (tw : Nat) (ws : List (String × WinData))
    (h5 : white_matches ticket winning = 5)
    (hm : mega_matches ticket winning = true) :
    derive_key (get_match_description ticket winning) = "5 + Mega Ball" ∧
    processTicket winning (tw, ws) ticket =
      (tw + 1000000000, updateSummary ws "5 + Mega Ball" 1000000000) ∧
    ∀ p ∈ ws, p.1 ≠ "5 + Mega Ball" →
      p ∈ (processTicket winning (tw, ws) ticket).2 := by
  have hkey : derive_key (get_match_description ticket winning) = "5 + Mega Ball" := by
    unfold get_match_description
    rw [h5, hm]
    decide
  have hcw : check_win ticket winning = 1000000000 := by
    unfold check_win
    rw [h5, hm]
    decide
  have hstep : processTicket winning (tw, ws) ticket =
      (tw + 1000000000, updateSummary ws "5 + Mega Ball" 1000000000) := by
    simp only [processTicket, hcw, hkey]
    rw [if_pos (by omega)]
  refine ⟨hkey, hstep, fun p hp hne => ?_⟩
  rw [hstep]
  exact updateSummary_mem_other ws _ _ p hp hne

/-- C2 witness: a ticket identical to the draw hits the hypotheses and
the aggregation lands in the "5 + Mega Ball" tier. -/
theorem jackpot_aggregates_into_top_tier_witness :
    white_matches ([1, 2, 3, 4, 5], 7) ([1, 2, 3, 4, 5], 7) = 5 ∧
    mega_matches ([1, 2, 3, 4, 5], 7) ([1, 2, 3, 4, 5], 7) = true ∧
    (derive_key (get_match_description ([1, 2, 3, 4, 5], 7) ([1, 2, 3, 4, 5], 7)) =
        "5 + Mega Ball" ∧
      processTicket ([1, 2, 3, 4, 5], 7) (0, []) ([1, 2, 3, 4, 5], 7) =
        (0 + 1000000000, updateSummary [] "5 + Mega Ball" 1000000000) ∧
      ∀ p ∈ ([] : List (String × WinData)), p.1 ≠ "5 + Mega Ball" →
        p ∈ (processTicket ([1, 2, 3, 4, 5], 7) (0, []) ([1, 2, 3, 4, 5], 7)).2) :=
  ⟨by decide, by decide,
    jackpot_aggregates_into_top_tier ([1, 2, 3, 4, 5], 7) ([1, 2, 3, 4, 5], 7) 0 []
      (by decide) (by decide)⟩

/-- C3: after the ticket loop processes any list of tickets (10 in the
reference run), the sum over the 9 tiers of the per-tier win counts is at
most the number of tickets, and the sum of the per-tier totals equals the
reported total winnings. -/
theorem aggregator_invariant (winning : TicketNumbers) (tickets : List TicketNumbers) :
    sumCounts (runTickets winning tickets).2 ≤ tickets.length ∧
    sumTotals (runTickets winning tickets).2 = (runTickets winning tickets).1 := by
  obtain ⟨_, h2, h3⟩ := foldl_processTicket_inv winning tickets 0 initialize_win_summary rfl
  have hc0 : sumCounts initialize_win_summary = 0 := rfl
  have ht0 : sumTotals initialize_win_summary = 0 := rfl
  unfold runTickets
  omega

/-- C4: for every state of the random source, `generate_numbers` returns
exactly 5 distinct white balls, each in [1,70], sorted ascending, plus one
mega ball in [1,25]. -/
theorem generate_numbers_wellformed (s : Nat → Nat) (i : Nat) :
    (generate_numbers s i).1.length = 5 ∧
    (generate_numbers s i).1.Nodup ∧
    List.Sorted (· ≤ ·) (generate_numbers s i).1 ∧
    (∀ x ∈ (generate_numbers s i).1, 1 ≤ x ∧ x ≤ 70) ∧
    1 ≤ (generate_numbers s i).2 ∧ (generate_numbers s i).2 ≤ 25 := by
  obtain ⟨hrl, hrnd, hrb⟩ := white_ball_range_spec
  obtain ⟨hl, hnd, hmem⟩ :=
    sample_wellformed 5 white_ball_range s i (by rw [hrl]; omega) hrnd
  have hperm := generate_numbers_perm s i
  have hmega : (generate_numbers s i).2 ∈ mega_ball_range := by
    have hlen : mega_ball_range.length = 25 := rfl
    have hidx : s (i + 5) % mega_ball_range.length < mega_ball_range.length :=
      Nat.mod_lt _ (by rw [hlen]; omega)
    show mega_ball_range.getD _ 0 ∈ mega_ball_range
    rw [List.getD_eq_getElem _ _ hidx]
    exact List.getElem_mem hidx
  have hmegab := List.mem_range'_1.mp hmega
  simp only [MEGA_BALL_MAX] at hmegab
  refine ⟨hperm.length_eq.trans hl, hperm.nodup_iff.mpr hnd,
    List.sorted_insertionSort _ _, fun x hx => hrb x (hmem x (hperm.mem_iff.mp hx)),
    by omega, by omega⟩

/-- C5: the pipeline is deterministic in its random source: two runs of
draw, ticket generation, evaluation, aggregation and reporting over equal
random sources produce identical summary and probability-table output. -/
theorem simulate_deterministic (s t : Nat → Nat) (h : ∀ n, s n = t n) :
    simulate s = simulate t := by
  rw [funext h]

/-- C5 witness: the theorem applied to the constant-zero source. -/
theorem simulate_deterministic_witness :
    (∀ n : Nat, (fun _ : Nat => 0) n = (fun _ : Nat => 0) n) ∧
    simulate (fun _ => 0) = simulate (fun _ => 0) :=
  ⟨fun _ => rfl, simulate_deterministic (fun _ => 0) (fun _ => 0) (fun _ => rfl)⟩

/-- C6: for every tier whose expected win count is 0, the probability row
is computed without any division error and reports the percentage
difference as 0. -/
theorem prob_row_zero_expected (name : String) (data : WinData) (n : Nat)
    (h : (n : ℚ) * data.odds = 0) :
    (print_probability_row name data n).expected = 0 ∧
    (print_probability_row name data n).diff_percent = 0 := by
  simp [print_probability_row, h]

/-- C6 witness: a tier with odds 0 and 10 tickets. -/
theorem prob_row_zero_expected_witness :
    ((10 : Nat) : ℚ) * (WinData.mk 0 0 0 0).odds = 0 ∧
    ((print_probability_row "none" (WinData.mk 0 0 0 0) 10).expected = 0 ∧
      (print_probability_row "none" (WinData.mk 0 0 0 0) 10).diff_percent = 0) :=
  ⟨by norm_num, prob_row_zero_expected "none" (WinData.mk 0 0 0 0) 10 (by norm_num)⟩

/-- C7: `print_summary` on 10 tickets, 20.00 spent and 0 won reports a
net profit/loss of -20.00 and a return on spend of 0.00%. -/
theorem print_summary_reference_values :
    print_summary 10 20 0 = (-20, 0) := by
  norm_num [print_summary, net_profit_loss, return_on_spend]

/-- C8: with a white-ball pool of fewer than 5 values, number generation
fails with the wrapped error "Failed to generate numbers", and the whole
run aborts with that error, with no retry and no partial result. -/
theorem generation_fails_on_small_pool (white_pool mega_pool : List Nat)
    (s : Nat → Nat) (i : Nat) (h : white_pool.length < 5) :
    generate_numbers_checked white_pool mega_pool s i =
      Except.error "Failed to generate numbers" ∧
    simulateE white_pool mega_pool s =
      Except.error "Failed to generate numbers" := by
  have hgen : ∀ j, generate_numbers_checked white_pool mega_pool s j =
      Except.error "Failed to generate numbers" := fun j => by
    unfold generate_numbers_checked
    rw [if_neg (by omega)]
  refine ⟨hgen i, ?_⟩
  show Except.bind (generate_numbers_checked white_pool mega_pool s 0) _ =
    Except.error "Failed to generate numbers"
  rw [hgen 0]
  rfl

/-- C8 witness: a three-element white-ball pool. -/
theorem generation_fails_on_small_pool_witness :
    ([1, 2, 3] : List Nat).length < 5 ∧
    (generate_numbers_checked [1, 2, 3] [1] (fun _ => 0) 0 =
        Except.error "Failed to generate numbers" ∧
      simulateE [1, 2, 3] [1] (fun _ => 0) =
        Except.error "Failed to generate numbers") :=
  ⟨by decide, generation_fails_on_small_pool [1, 2, 3] [1] (fun _ => 0) 0 (by decide)⟩

/-- C9: every (white matches in 0..5, mega match) pair with a strictly
positive payout derives an aggregation key that is one of the exact 9
keys created by `initialize_win_summary`, so the dictionary lookup in the
aggregation step cannot miss. -/
theorem winning_key_is_initialized (wm : Nat) (mm : Bool)
    (hwm : wm ≤ 5) (hpos : 0 < payout_of wm mm) :
    derive_key (descOf wm mm) ∈ initialize_win_summary.map Prod.fst :=
  derive_key_mem wm mm hpos

/-- C9 witness: the pair (3, false) pays 10 and its key "3" is present. -/
theorem winning_key_is_initialized_witness :
    3 ≤ 5 ∧ 0 < payout_of 3 false ∧
    derive_key (descOf 3 false) ∈ initialize_win_summary.map Prod.fst :=
  ⟨by omega, by decide, winning_key_is_initialized 3 false (by omega) (by decide)⟩

/-- C10: `generate_numbers` does not exclude the mega ball from the white
balls: for some state of the random source the returned mega ball equals
one of the five white balls. -/
theorem mega_ball_can_repeat_white_ball :
    ∃ (s : Nat → Nat) (i : Nat),
      (generate_numbers s i).2 ∈ (generate_numbers s i).1 :=
  ⟨fun _ => 0, 0, by decide⟩

end MegaMillionsSim
